import Mathlib

/-!
Shallow embedding of the ForthInterpreter execution engine
(src/src/lib.rs and src/src/entities/simple/literal.rs).

Conventions used throughout:
* Rust `i64` is modelled as `Int`; two's-complement wraparound is made
  explicit with `wrap64` where the source can overflow, and `i64` division
  overflow / division by zero are modelled as host panics.
* Rust `usize` is modelled as `Nat`.
* The operand stack (a `Vec` pushed/popped at the back) is modelled as a
  `List Literal` whose HEAD is the TOP of the stack; `Vec` index
  `length - 1 - k` (k-th from the top) corresponds to list index `k`.
* `HashMap` fields are modelled as association lists.
* A primitive mutates the interpreter in place and returns
  `Result<(), ForthError>`; possible host panics (unchecked `Vec` indexing,
  integer division) are a third outcome.  This is captured by `ExecResult`,
  which carries the mutated state also on the error path, because the Rust
  code has no rollback: operands popped before a failure stay popped.
-/

namespace Forth

/-- Error taxonomy of the interpreter (src/src/errors.rs is referenced from
lib.rs via `ForthError::{StackUnderflow, InvalidOperands}`; the spec lists
the four kinds). -/
inductive ForthError where
  | StackUnderflow
  | InvalidOperands
  | UndefinedWord
  | SyntaxError
deriving DecidableEq, Repr

/-- `Pointer` struct of literal.rs: a slot address and a reserved offset. -/
structure Pointer where
  address : Nat
  offset : Nat
deriving DecidableEq, Repr

/-- The `Literal` tagged union of literal.rs. -/
inductive Literal where
  | Pointer (p : Forth.Pointer)
  | Integer (i : Int)
  | String (s : String)
  | Array (xs : List Literal)
  | Unknown
deriving Repr

/-- `Variable` struct of lib.rs: a name and an optional value. -/
structure Variable where
  name : String
  value : Option Literal
deriving Repr

/-- Modelled from the spec: the compiled element of a user-defined word body
(`WordElement` lives in src/src/entities/complex/definition.rs, which is not
under src/).  Per spec section 4.5, a body is "a stored sequence of
executable elements - nested literals and word invocations", so an element
is either an already-typed literal or a word reference by name; a parsed
line is a sequence of the same elements. -/
inductive WordElement where
  | lit (v : Literal)
  | word (name : String)
deriving Repr

/-- The `ForthInterpreter` struct of lib.rs.  `native_words` is a fixed
code-backed table and is modelled by the function `lookupNative` below
rather than by a data field; the `variables` field is named `vars` here
because `variables` is reserved in Lean. -/
structure ForthInterpreter where
  stack : List Literal
  vars : List Variable
  constants : List (String × Literal)
  userWords : List (String × List WordElement)
  output : String
deriving Repr

/-- Outcome of running a primitive or a line: `ok` and `err` both carry the
mutated interpreter (Rust mutates in place, so state changes made before a
failure persist); `panic` is a host panic (unwinding), whose state is not
observable by the caller. -/
inductive ExecResult where
  | ok (s : ForthInterpreter)
  | err (e : ForthError) (s : ForthInterpreter)
  | panic
deriving Repr

/-! ## Equality and ordering of literals (literal.rs) -/

mutual

/-- `PartialEq for Literal` (literal.rs lines 79-115): same-variant
structural equality, `false` across variants, `Unknown == Unknown` true.
`Vec<Literal> == Vec<Literal>` is element-wise, handled mutually. -/
def literalEq : Literal → Literal → Bool
  | .Integer i, .Integer j => i == j
  | .Integer _, _ => false
  | .Pointer p, .Pointer q => p.address == q.address && p.offset == q.offset
  | .Pointer _, _ => false
  | .String s, .String t => s == t
  | .String _, _ => false
  | .Array xs, .Array ys => listLiteralEq xs ys
  | .Array _, _ => false
  | .Unknown, .Unknown => true
  | .Unknown, _ => false

/-- Element-wise equality of literal sequences (Rust `Vec` `PartialEq`). -/
def listLiteralEq : List Literal → List Literal → Bool
  | [], [] => true
  | x :: xs, y :: ys => literalEq x y && listLiteralEq xs ys
  | _, _ => false
end

/-- Derived `PartialOrd` on the `Pointer` struct: lexicographic by field
declaration order (`address`, then `offset`); total since both fields are
`usize`. -/
def pointerCmp (p q : Pointer) : Ordering :=
  match compare p.address q.address with
  | .eq => compare p.offset q.offset
  | o => o

/-- Lexicographic comparison of the characters of two strings.  Rust
compares `String`s byte-wise over their UTF-8 encodings, which orders them
exactly as comparing Unicode scalar values does, so comparing `Char`
values (scalar values) is the same order. -/
def strCmp (s t : String) : Ordering :=
  let rec go : List Char → List Char → Ordering
    | [], [] => .eq
    | [], _ :: _ => .lt
    | _ :: _, [] => .gt
    | a :: as, b :: bs =>
      match compare a.val.toNat b.val.toNat with
      | .eq => go as bs
      | o => o
  go s.data t.data

mutual

/-- `PartialOrd for Literal` (literal.rs lines 117-157): ordering is defined
only within a variant; every cross-variant pair, and `Unknown` against
`Unknown` (both branches of that match arm return `None` in the source),
is incomparable (`none`). -/
def literalPCmp : Literal → Literal → Option Ordering
  | .Integer i, .Integer j => some (compare i j)
  | .Integer _, _ => none
  | .Pointer p, .Pointer q => some (pointerCmp p q)
  | .Pointer _, _ => none
  | .String s, .String t => some (strCmp s t)
  | .String _, _ => none
  | .Array xs, .Array ys => listLiteralPCmp xs ys
  | .Array _, _ => none
  | .Unknown, _ => none

/-- Rust slice `partial_cmp`: compare element pairs left to right; the first
pair that is not `Some(Equal)` decides (`None` makes the whole comparison
`None`); if one sequence is a strict prefix of the other, the shorter one
is smaller. -/
def listLiteralPCmp : List Literal → List Literal → Option Ordering
  | [], [] => some .eq
  | [], _ :: _ => some .lt
  | _ :: _, [] => some .gt
  | x :: xs, y :: ys =>
    match literalPCmp x y with
    | some .eq => listLiteralPCmp xs ys
    | some o => some o
    | none => none

end

/-- Rust `a < b` on a `PartialOrd` type: `partial_cmp` returned
`Some(Less)`. -/
def literalLt (a b : Literal) : Bool :=
  literalPCmp a b == some .lt

/-- Rust `a > b` on a `PartialOrd` type: `partial_cmp` returned
`Some(Greater)`. -/
def literalGt (a b : Literal) : Bool :=
  literalPCmp a b == some .gt

/-! ## Display (literal.rs lines 57-77) -/

/-- Debug rendering of a `Pointer` (Rust derived `Debug`). -/
def pointerDebug (p : Pointer) : String :=
  "Pointer \x7b address: " ++ toString p.address ++ ", offset: " ++
    toString p.offset ++ " \x7d"

/-- Debug rendering of a Rust string: quoted, with the common escapes;
Rust's `Debug` escapes further control characters, which this model
abstracts (no claim depends on it). -/
def strDebug (s : String) : String :=
  let esc : Char → String := fun c =>
    if c = '"' then "\\\""
    else if c = '\\' then "\\\\"
    else if c = '\n' then "\\n"
    else if c = '\t' then "\\t"
    else if c = '\r' then "\\r"
    else String.singleton c
  "\"" ++ String.join (s.data.map esc) ++ "\""

mutual

/-- Debug rendering of a `Literal` (Rust derived `Debug`, used by `Display`
for the `Pointer` and `Array` variants). -/
def literalDebug : Literal → String
  | .Pointer p => "Pointer(" ++ pointerDebug p ++ ")"
  | .Integer i => "Integer(" ++ toString i ++ ")"
  | .String s => "String(" ++ strDebug s ++ ")"
  | .Array xs => "Array(" ++ listLiteralDebug xs ++ ")"
  | .Unknown => "Unknown"

/-- Debug rendering of a `Vec<Literal>`: `[a, b, c]`. -/
def listLiteralDebug (xs : List Literal) : String :=
  "[" ++ go xs ++ "]"
where
  go : List Literal → String
    | [] => ""
    | [x] => literalDebug x
    | x :: xs => literalDebug x ++ ", " ++ go xs

end

/-- `Display for Literal`: decimal for integers, raw text for strings,
debug form for pointers and arrays, empty text for `Unknown`. -/
def literalDisplay : Literal → String
  | .Integer i => toString i
  | .String s => s
  | .Pointer p => pointerDebug p
  | .Array xs => listLiteralDebug xs
  | .Unknown => ""

/-! ## i64 arithmetic -/

/-- Two's-complement wraparound into the `i64` range, the release-mode
semantics of Rust `i64` addition, subtraction and multiplication. -/
def wrap64 (x : Int) : Int :=
  (x + 2 ^ 63) % 2 ^ 64 - 2 ^ 63

/-- Smallest `i64`. -/
def i64min : Int := -(2 ^ 63)

/-- Rust `i64` truncating division (rounds toward zero); panics (here: `none`) on a zero divisor
and on the one overflowing quotient `i64::MIN / -1`. -/
def i64div (a b : Int) : Option Int :=
  if b = 0 ∨ (a = i64min ∧ b = -1) then none else some (Int.tdiv a b)

/-- Truncation of an `i64` to a `u32` (Rust `i as u32`): the low 32 bits. -/
def i64asU32 (i : Int) : Nat :=
  (i % 2 ^ 32).toNat

/-! ## Operand helpers (lib.rs lines 77-89) -/

/-- `get_unary_operand`: pop the top of the stack or fail `StackUnderflow`. -/
def getUnaryOperand (it : ForthInterpreter) :
    Except (ForthError × ForthInterpreter) (Literal × ForthInterpreter) :=
  match it.stack with
  | v :: rest => .ok (v, { it with stack := rest })
  | [] => .error (.StackUnderflow, it)

/-- `get_binary_operands`: pop `b` (top), then pop `a`; each failed pop is
`StackUnderflow`.  When only one element is present, `b` has already been
popped when the failure occurs, and it stays popped. -/
def getBinaryOperands (it : ForthInterpreter) :
    Except (ForthError × ForthInterpreter)
      (Literal × Literal × ForthInterpreter) :=
  match it.stack with
  | b :: a :: rest => .ok (a, b, { it with stack := rest })
  | [_] => .error (.StackUnderflow, { it with stack := [] })
  | [] => .error (.StackUnderflow, it)

/-- `push` (lib.rs lines 318-320). -/
def push (it : ForthInterpreter) (v : Literal) : ForthInterpreter :=
  { it with stack := v :: it.stack }

/-! ## Native primitives (lib.rs) -/

/-- `add`: pop two operands; if both are integers push their sum, else fail
`InvalidOperands`. -/
def add (it : ForthInterpreter) : ExecResult :=
  match getBinaryOperands it with
  | .error (e, it') => .err e it'
  | .ok (a, b, it') =>
    match a, b with
    | .Integer a, .Integer b => .ok (push it' (.Integer (wrap64 (a + b))))
    | _, _ => .err .InvalidOperands it'

/-- `sub`: pop two operands; if both are integers push `a - b`, else fail
`InvalidOperands`. -/
def sub (it : ForthInterpreter) : ExecResult :=
  match getBinaryOperands it with
  | .error (e, it') => .err e it'
  | .ok (a, b, it') =>
    match a, b with
    | .Integer a, .Integer b => .ok (push it' (.Integer (wrap64 (a - b))))
    | _, _ => .err .InvalidOperands it'

/-- `mul`: pop two operands; if both are integers push `a * b`, else fail
`InvalidOperands`. -/
def mul (it : ForthInterpreter) : ExecResult :=
  match getBinaryOperands it with
  | .error (e, it') => .err e it'
  | .ok (a, b, it') =>
    match a, b with
    | .Integer a, .Integer b => .ok (push it' (.Integer (wrap64 (a * b))))
    | _, _ => .err .InvalidOperands it'

/-- `div` (lib.rs lines 156-165): pop two operands; if both are integers
push `a / b` — the division itself is UNGUARDED, so a zero divisor (or
`i64::MIN / -1`) is a host panic, not a `ForthError`; non-integer operands
fail `InvalidOperands`. -/
def div (it : ForthInterpreter) : ExecResult :=
  match getBinaryOperands it with
  | .error (e, it') => .err e it'
  | .ok (a, b, it') =>
    match a, b with
    | .Integer a, .Integer b =>
      match i64div a b with
      | some q => .ok (push it' (.Integer q))
      | none => .panic
    | _, _ => .err .InvalidOperands it'

/-- `dup`: peek the top (`get_last_literal`) and push a clone of it. -/
def dup (it : ForthInterpreter) : ExecResult :=
  match it.stack with
  | v :: _ => .ok (push it v)
  | [] => .err .StackUnderflow it

/-- `drop`: pop the top, failing `StackUnderflow` on an empty stack. -/
def drop (it : ForthInterpreter) : ExecResult :=
  match it.stack with
  | _ :: rest => .ok { it with stack := rest }
  | [] => .err .StackUnderflow it

/-- `swap`: pop `(a, b)`, push `b`, then push `a`. -/
def swap (it : ForthInterpreter) : ExecResult :=
  match getBinaryOperands it with
  | .error (e, it') => .err e it'
  | .ok (a, b, it') => .ok (push (push it' b) a)

/-- `over` (lib.rs lines 184-191): if at least two elements are present,
push a copy of the element at index `length - 2` (the second from the
top), else fail `StackUnderflow`. -/
def over (it : ForthInterpreter) : ExecResult :=
  match it.stack with
  | x :: y :: rest => .ok { it with stack := y :: x :: y :: rest }
  | _ => .err .StackUnderflow it

/-- `rot` (lib.rs lines 193-201): if at least three elements are present,
remove the element at index `length - 3` (the third from the top) and push
it on top, else fail `StackUnderflow`. -/
def rot (it : ForthInterpreter) : ExecResult :=
  match it.stack with
  | x :: y :: z :: rest => .ok { it with stack := z :: x :: y :: rest }
  | _ => .err .StackUnderflow it

/-- `print_top` (`.`): peek the top and print its display form. -/
def printTop (it : ForthInterpreter) : ExecResult :=
  match it.stack with
  | v :: _ => .ok { it with output := it.output ++ literalDisplay v }
  | [] => .err .StackUnderflow it

/-- `emit` (lib.rs lines 208-214): peek the top (not popped).  If it is an
integer `i`, truncate to `i as u32` and print `char::from_u32` of it,
failing `InvalidOperands` when that is not a valid Unicode scalar value.
A non-integer top falls through the `if let` and SUCCEEDS printing
nothing. -/
def emit (it : ForthInterpreter) : ExecResult :=
  match it.stack with
  | .Integer i :: _ =>
    let u := i64asU32 i
    if u.isValidChar then
      .ok { it with output := it.output.push (Char.ofNat u) }
    else
      .err .InvalidOperands it
  | _ :: _ => .ok it
  | [] => .err .StackUnderflow it

/-- `cr`: print a newline. -/
def cr (it : ForthInterpreter) : ExecResult :=
  .ok { it with output := it.output.push '\n' }

/-- `equal` (`=`): pop `(a, b)` and push `-1` when `a == b`, else `0`
(`PartialEq`, so cross-variant pairs compare unequal, not as an error). -/
def equal (it : ForthInterpreter) : ExecResult :=
  match getBinaryOperands it with
  | .error (e, it') => .err e it'
  | .ok (a, b, it') =>
    .ok { it' with stack := Literal.Integer (if literalEq a b then -1 else 0) :: it'.stack }

/-- `less_than` (`<`, lib.rs lines 227-231): pop `(a, b)` and push `-1`
when `a < b`, else `0`.  `a < b` is `PartialOrd::lt`, which is `false`
whenever `partial_cmp` is `None`, so incomparable operands push `0` and
the primitive never fails with `InvalidOperands`. -/
def lessThan (it : ForthInterpreter) : ExecResult :=
  match getBinaryOperands it with
  | .error (e, it') => .err e it'
  | .ok (a, b, it') =>
    .ok { it' with stack := Literal.Integer (if literalLt a b then -1 else 0) :: it'.stack }

/-- `greater_than` (`>`, lib.rs lines 233-237): pop `(a, b)` and push `-1`
when `a > b`, else `0`; incomparable operands push `0` (see `lessThan`). -/
def greaterThan (it : ForthInterpreter) : ExecResult :=
  match getBinaryOperands it with
  | .error (e, it') => .err e it'
  | .ok (a, b, it') =>
    .ok { it' with stack := Literal.Integer (if literalGt a b then -1 else 0) :: it'.stack }

/-- `and`: pop `(a, b)` and push `-1` when both differ from the literal
`Integer 0`, else `0`. -/
def andWord (it : ForthInterpreter) : ExecResult :=
  match getBinaryOperands it with
  | .error (e, it') => .err e it'
  | .ok (a, b, it') =>
    .ok { it' with stack :=
      Literal.Integer (if !literalEq a (.Integer 0) && !literalEq b (.Integer 0)
                then -1 else 0) :: it'.stack }

/-- `or`: pop `(a, b)` and push `-1` when either differs from the literal
`Integer 0`, else `0`. -/
def orWord (it : ForthInterpreter) : ExecResult :=
  match getBinaryOperands it with
  | .error (e, it') => .err e it'
  | .ok (a, b, it') =>
    .ok { it' with stack :=
      Literal.Integer (if !literalEq a (.Integer 0) || !literalEq b (.Integer 0)
                then -1 else 0) :: it'.stack }

/-- `invert`: pop the top and push `-1` when it equals the literal
`Integer 0`, else `0`. -/
def invert (it : ForthInterpreter) : ExecResult :=
  match it.stack with
  | a :: rest =>
    .ok { it with stack :=
      Literal.Integer (if literalEq a (.Integer 0) then -1 else 0) :: rest }
  | [] => .err .StackUnderflow it

/-- `variable` (lib.rs lines 257-261): pop a name literal from the stack
and append a new unset variable named by its display form. -/
def variableWord (it : ForthInterpreter) : ExecResult :=
  match it.stack with
  | nm :: rest =>
    .ok { it with
            stack := rest
            vars := it.vars ++ [{ name := literalDisplay nm, value := none }] }
  | [] => .err .StackUnderflow it

/-- `store_variable` (`!`, lib.rs lines 293-299): pop `(var_value,
var_index)`.  If `var_index` is a pointer, write `Some(var_value)` into
the slot it addresses — the `Vec` indexing is UNCHECKED, so an
out-of-range address is a host panic.  If `var_index` is NOT a pointer the
`if let` falls through and the call SUCCEEDS doing nothing (both operands
stay popped). -/
def storeVariable (it : ForthInterpreter) : ExecResult :=
  match getBinaryOperands it with
  | .error (e, it') => .err e it'
  | .ok (varValue, varIndex, it') =>
    match varIndex with
    | .Pointer p =>
      match it'.vars[p.address]? with
      | some oldVar =>
        .ok { it' with vars :=
                it'.vars.set p.address { oldVar with value := some varValue } }
      | none => .panic
    | _ => .ok it'

/-- `fetch_variable` (`@`, lib.rs lines 301-307): pop one operand.  If it
is a pointer, push the addressed slot's value, defaulting to `Integer 0`
when the slot is unset — the `Vec` indexing is UNCHECKED, so an
out-of-range address is a host panic.  A non-pointer operand falls through
the `if let`: the call SUCCEEDS pushing nothing. -/
def fetchVariable (it : ForthInterpreter) : ExecResult :=
  match getUnaryOperand it with
  | .error (e, it') => .err e it'
  | .ok (varIndex, it') =>
    match varIndex with
    | .Pointer p =>
      match it'.vars[p.address]? with
      | some var => .ok (push it' (var.value.getD (.Integer 0)))
      | none => .panic
    | _ => .ok it'

/-- `ForthInterpreter::bool` (lib.rs lines 111-121): an integer is truthy
exactly when it equals `-1` (`!(*i != -1)`); every string is truthy; any
other variant hits `unreachable!()`, a host panic, modelled as `none`. -/
def bool : Literal → Option Bool
  | .Integer i => some (!(i != -1))
  | .String _ => some true
  | _ => none

/-- The `native_words` table built by `ForthInterpreter::new`
(lib.rs lines 61-72): name to primitive. -/
def lookupNative (name : String) : Option (ForthInterpreter → ExecResult) :=
  if name = "+" then some add
  else if name = "-" then some sub
  else if name = "*" then some mul
  else if name = "/" then some div
  else if name = "dup" then some dup
  else if name = "drop" then some drop
  else if name = "swap" then some swap
  else if name = "over" then some over
  else if name = "rot" then some rot
  else if name = "." then some printTop
  else if name = "emit" then some emit
  else if name = "cr" then some cr
  else if name = "=" then some equal
  else if name = "<" then some lessThan
  else if name = ">" then some greaterThan
  else if name = "invert" then some invert
  else if name = "and" then some andWord
  else if name = "or" then some orWord
  else if name = "!" then some storeVariable
  else if name = "@" then some fetchVariable
  else none

/-- Lookup of a user-defined word body in the `user_words` map (modelled
as an association list). -/
def lookupUserWord : List (String × List WordElement) → String →
    Option (List WordElement)
  | [], _ => none
  | (n, body) :: rest, name =>
    if n = name then some body else lookupUserWord rest name

mutual

/-- Modelled from the spec: three-way token dispatch of section 4.5 (the
`Line`/`WordElement` execution code in src/src/entities is not under
src/).  A literal element is pushed (this much IS in src: `ExecuteExt for
Literal`, literal.rs lines 39-44); a name is resolved first against the
native table, then against the user-word map, whose body is executed
element by element; an unresolved name is a hard `UndefinedWord` failure.
`fuel` bounds the user-word call depth (the spec bounds recursion only by
host memory); exhausting it is modelled as a host panic. -/
def execElement : Nat → ForthInterpreter → WordElement → ExecResult
  | _, it, .lit v => .ok (push it v)
  | fuel, it, .word name =>
    match lookupNative name with
    | some f => f it
    | none =>
      match lookupUserWord it.userWords name with
      | some body =>
        match fuel with
        | 0 => .panic
        | fuel + 1 => execBody fuel it body
      | none => .err .UndefinedWord it
termination_by fuel _ e => (fuel, sizeOf e)

/-- Modelled from the spec: execute a sequence of elements (a parsed line,
or a user word's body) in order; a failure aborts the remaining elements
and propagates, leaving the state reached so far (spec section 5: no
transactional rollback). -/
def execBody : Nat → ForthInterpreter → List WordElement → ExecResult
  | _, it, [] => .ok it
  | fuel, it, e :: rest =>
    match execElement fuel it e with
    | .ok it' => execBody fuel it' rest
    | r => r
termination_by fuel _ es => (fuel, sizeOf es)

end

/-- `ForthInterpreter::new`: empty stack, no variables, no constants, no
user words (and nothing printed yet). -/
def newInterpreter : ForthInterpreter :=
  { stack := [], vars := [], constants := [], userWords := [], output := "" }

/-! ## Helper notions and lemmas -/

/-- The variant (discriminant) of a literal, used to state cross-variant
properties. -/
def variantTag : Literal → Nat
  | .Pointer _ => 0
  | .Integer _ => 1
  | .String _ => 2
  | .Array _ => 3
  | .Unknown => 4

/-- Two literals of different variants are incomparable, and so are two
`Unknown`s. -/
theorem literalPCmp_cross (a b : Literal)
    (h : variantTag a ≠ variantTag b ∨ (a = .Unknown ∧ b = .Unknown)) :
    literalPCmp a b = none := by
  cases a <;> cases b <;>
    first
      | rfl
      | (rcases h with h | ⟨h1, h2⟩
         · exact absurd rfl h
         · cases h1)

/-- Indexing a list extended by one element at the old length yields the
new element. -/
theorem getElem?_append_length (l : List α) (x : α) :
    (l ++ [x])[l.length]? = some x := by
  induction l with
  | nil => rfl
  | cons a t ih => simp [ih]

/-- Updating a list extended by one element at the old length replaces the
new element. -/
theorem set_append_length (l : List α) (x y : α) :
    (l ++ [x]).set l.length y = l ++ [y] := by
  induction l with
  | nil => rfl
  | cons a t ih => simp [List.set, ih]

/-! ## Claims -/

/-- C1 (counterexample): `<` on the cross-variant pair
`Integer 1, String "a"` does NOT fail with `InvalidOperands`: it succeeds
and pushes `Integer 0` (false); likewise `>` on `Unknown, Unknown`. -/
theorem C1_cross_variant_counterexample :
    (lessThan { newInterpreter with stack := [.String "a", .Integer 1] } =
      .ok { newInterpreter with stack := [.Integer 0] }) ∧
    (greaterThan { newInterpreter with stack := [.Unknown, .Unknown] } =
      .ok { newInterpreter with stack := [.Integer 0] }) :=
  ⟨rfl, rfl⟩

/-- C1 (amended): with two operands present, `<` and `>` never fail at all:
they always succeed and push `-1`/`0` according to `PartialOrd::lt`/`gt`;
a cross-variant pair (or `Unknown` against `Unknown`) is incomparable, so
both `lt` and `gt` are `false` there and `0` is silently pushed instead of
failing with `InvalidOperands`. -/
theorem C1_comparisons_never_fail (it : ForthInterpreter) (a b : Literal)
    (rest : List Literal) :
    (lessThan { it with stack := b :: a :: rest } =
      .ok { it with stack :=
        Literal.Integer (if literalLt a b then -1 else 0) :: rest }) ∧
    (greaterThan { it with stack := b :: a :: rest } =
      .ok { it with stack :=
        Literal.Integer (if literalGt a b then -1 else 0) :: rest }) ∧
    (variantTag a ≠ variantTag b ∨ (a = .Unknown ∧ b = .Unknown) →
      literalLt a b = false ∧ literalGt a b = false) := by
  refine ⟨rfl, rfl, fun h => ?_⟩
  rw [literalLt, literalGt, literalPCmp_cross a b h]
  exact ⟨rfl, rfl⟩

/-- C1 (witness): at `a := Integer 1`, `b := String "a"` the variants
differ, and both orderings come out `false`. -/
theorem C1_comparisons_never_fail_witness :
    literalLt (.Integer 1) (.String "a") = false ∧
    literalGt (.Integer 1) (.String "a") = false :=
  (C1_comparisons_never_fail newInterpreter (.Integer 1) (.String "a")
    []).2.2 (Or.inl (by decide))

/-- C2 (counterexample): executing `/` on the line `5 0 /` (stack top `0`,
below it `5`) is a host panic — the unguarded Rust `i64` division — not a
typed `ForthError` of the interpreter. -/
theorem C2_div_by_zero_counterexample :
    div { newInterpreter with stack := [.Integer 0, .Integer 5] } =
      .panic :=
  rfl

/-- C2 (amended): division with a zero divisor always reaches the host
panic outcome (deterministically), for every left operand and stack tail;
it is never converted into a typed interpreter failure. -/
theorem C2_div_by_zero_panics (it : ForthInterpreter) (a : Int)
    (rest : List Literal) :
    div { it with stack := Literal.Integer 0 :: Literal.Integer a :: rest } =
      .panic := by
  simp [div, getBinaryOperands, i64div]

/-- C3 (counterexample): the line `3 zzz 9` (where `zzz` resolves to no
word) fails with `UndefinedWord` and the trailing `9` is not executed, but
the stack is NOT unchanged from before the line began: the `3` pushed by
the earlier token of the same line remains on it. -/
theorem C3_stack_not_restored_counterexample :
    (execBody 1 newInterpreter
        [.lit (.Integer 3), .word "zzz", .lit (.Integer 9)] =
      .err .UndefinedWord { newInterpreter with stack := [.Integer 3] }) ∧
    [Literal.Integer 3] ≠ newInterpreter.stack := by
  refine ⟨?_, by simp [newInterpreter]⟩
  simp [execBody, execElement, lookupNative, lookupUserWord, push,
    newInterpreter]

/-- C3 (amended, spec-modelled dispatch): a name token that resolves to
neither a native primitive nor a user-defined word makes the line fail
with `UndefinedWord` immediately: the remaining tokens of the line are not
executed (the result does not depend on them), and the state is exactly
the state reached when the unknown name was encountered — unchanged by the
failing token itself, but retaining the effects of earlier tokens of the
line (no rollback). -/
theorem C3_undefined_word_aborts_line (fuel : Nat) (it : ForthInterpreter)
    (name : String) (rest : List WordElement)
    (hnative : lookupNative name = none)
    (huser : lookupUserWord it.userWords name = none) :
    execBody fuel it (.word name :: rest) = .err .UndefinedWord it := by
  simp [execBody, execElement, hnative, huser]

/-- C3 (witness): the single unknown word `zzz` on a fresh interpreter. -/
theorem C3_undefined_word_aborts_line_witness :
    execBody 1 newInterpreter [.word "zzz"] =
      .err .UndefinedWord newInterpreter :=
  C3_undefined_word_aborts_line 1 newInterpreter "zzz" [] rfl rfl

/-- C4: round-trip through the variable store.  Declaring a variable
(`variable` pops a name literal and appends an unset slot) gives it the
pointer address `it.vars.length` (its index at declaration time); storing
any literal `v` through a pointer with that address (`!`) and then
fetching through the same pointer (`@`) pushes exactly `v`; fetching from
the declared-but-unset slot pushes `Integer 0` instead of failing. -/
theorem C4_variable_roundtrip (it : ForthInterpreter) (nmLit v : Literal)
    (nm : String) (off : Nat) (s rest rest' : List Literal) :
    (variableWord { it with stack := nmLit :: s } =
      .ok { it with
              stack := s
              vars := it.vars ++
                [{ name := literalDisplay nmLit, value := none }] }) ∧
    (fetchVariable { it with
          stack := Literal.Pointer ⟨it.vars.length, off⟩ :: rest
          vars := it.vars ++ [{ name := nm, value := none }] } =
      .ok { it with
              stack := Literal.Integer 0 :: rest
              vars := it.vars ++ [{ name := nm, value := none }] }) ∧
    (storeVariable { it with
          stack := Literal.Pointer ⟨it.vars.length, off⟩ :: v :: rest
          vars := it.vars ++ [{ name := nm, value := none }] } =
      .ok { it with
              stack := rest
              vars := it.vars ++ [{ name := nm, value := some v }] }) ∧
    (fetchVariable { it with
          stack := Literal.Pointer ⟨it.vars.length, off⟩ :: rest'
          vars := it.vars ++ [{ name := nm, value := some v }] } =
      .ok { it with
              stack := v :: rest'
              vars := it.vars ++ [{ name := nm, value := some v }] }) := by
  refine ⟨rfl, ?_, ?_, ?_⟩
  · simp [fetchVariable, getUnaryOperand, push, getElem?_append_length]
  · simp [storeVariable, getBinaryOperands, getElem?_append_length,
      set_append_length]
  · simp [fetchVariable, getUnaryOperand, push, getElem?_append_length]

/-- C5 (counterexample): `emit` with a non-integer on top does NOT fail
with `InvalidOperands`: it succeeds, printing nothing; and with the
integer `2^32 + 65` on top — which is not a valid Unicode scalar value —
it does not fail either: the `i as u32` truncation turns it into `65` and
`A` is printed. -/
theorem C5_emit_counterexample :
    (emit { newInterpreter with stack := [.String "x"] } =
      .ok { newInterpreter with stack := [.String "x"] }) ∧
    (emit { newInterpreter with stack := [.Integer 4294967361] } =
      .ok { newInterpreter with
              stack := [.Integer 4294967361]
              output := "A" }) :=
  ⟨rfl, rfl⟩

/-- C5 (amended): `emit` peeks the top without popping.  On an empty stack
it fails `StackUnderflow`.  On an integer top `i` it truncates `i` to 32
bits first; it prints the scalar value `i mod 2^32` encodes and fails
`InvalidOperands` only when that truncated value is not a valid scalar
value (so an invalid `i` can still print after truncation).  On a
non-integer top it silently succeeds, printing nothing, instead of
failing `InvalidOperands`. -/
theorem C5_emit_peek_truncate_silent (it : ForthInterpreter) (i : Int)
    (v : Literal) (rest : List Literal) :
    (emit { it with stack := [] } =
      .err .StackUnderflow { it with stack := [] }) ∧
    (Nat.isValidChar (i64asU32 i) →
      emit { it with stack := Literal.Integer i :: rest } =
        .ok { it with
                stack := Literal.Integer i :: rest
                output := it.output.push (Char.ofNat (i64asU32 i)) }) ∧
    (¬ Nat.isValidChar (i64asU32 i) →
      emit { it with stack := Literal.Integer i :: rest } =
        .err .InvalidOperands { it with stack := Literal.Integer i :: rest }) ∧
    ((∀ j, v ≠ Literal.Integer j) →
      emit { it with stack := v :: rest } =
        .ok { it with stack := v :: rest }) := by
  refine ⟨rfl, fun h => ?_, fun h => ?_, fun h => ?_⟩
  · simp [emit, h]
  · simp [emit, h]
  · cases v with
    | Integer j => exact absurd rfl (h j)
    | Pointer p => rfl
    | String s => rfl
    | Array xs => rfl
    | Unknown => rfl

/-- C5 (witness): `emit` on top `65` prints `A`; on top `-1` (whose
truncation `2^32 - 1` is not a scalar value) it fails `InvalidOperands`;
on top `Unknown` it silently succeeds. -/
theorem C5_emit_peek_truncate_silent_witness :
    (emit { newInterpreter with stack := [.Integer 65] } =
      .ok { newInterpreter with
              stack := [.Integer 65]
              output := "".push (Char.ofNat (i64asU32 65)) }) ∧
    (emit { newInterpreter with stack := [.Integer (-1)] } =
      .err .InvalidOperands { newInterpreter with stack := [.Integer (-1)] }) ∧
    (emit { newInterpreter with stack := [.Unknown] } =
      .ok { newInterpreter with stack := [.Unknown] }) :=
  ⟨(C5_emit_peek_truncate_silent newInterpreter 65 .Unknown []).2.1
      (by decide),
   (C5_emit_peek_truncate_silent newInterpreter (-1) .Unknown []).2.2.1
      (by decide),
   (C5_emit_peek_truncate_silent newInterpreter 0 .Unknown []).2.2.2
      (fun _ h => Literal.noConfusion h)⟩

/-- C6 (counterexample): `!` with the non-pointer `Integer 1` in the
pointer position does NOT signal `InvalidOperands`: it succeeds, silently
consuming both operands; `@` with a string operand also succeeds, pushing
nothing. -/
theorem C6_nonpointer_counterexample :
    (storeVariable { newInterpreter with stack := [.Integer 1, .Integer 2] } =
      .ok newInterpreter) ∧
    (fetchVariable { newInterpreter with stack := [.String "p"] } =
      .ok newInterpreter) :=
  ⟨rfl, rfl⟩

/-- C6 (amended): a non-`Pointer` operand in the pointer position of `!`
or `@` does not make the operation fail: the `if let Literal::Pointer`
test simply falls through and the primitive returns success — `!`
discards the popped value without storing it, `@` pushes nothing — so
these two primitives do not follow the uniform `InvalidOperands`
variant-validation contract. -/
theorem C6_nonpointer_silently_succeeds (it : ForthInterpreter)
    (v w : Literal) (rest : List Literal)
    (h : ∀ p, w ≠ Literal.Pointer p) :
    (storeVariable { it with stack := w :: v :: rest } =
      .ok { it with stack := rest }) ∧
    (fetchVariable { it with stack := w :: rest } =
      .ok { it with stack := rest }) := by
  cases w with
  | Pointer p => exact absurd rfl (h p)
  | Integer j => exact ⟨rfl, rfl⟩
  | String s => exact ⟨rfl, rfl⟩
  | Array xs => exact ⟨rfl, rfl⟩
  | Unknown => exact ⟨rfl, rfl⟩

/-- C6 (witness): `!` with `Integer 1` in pointer position and `@` with
`Integer 1` as operand both silently succeed on a fresh interpreter. -/
theorem C6_nonpointer_silently_succeeds_witness :
    (storeVariable { newInterpreter with stack := [.Integer 1, .Integer 2] } =
      .ok { newInterpreter with stack := [] }) ∧
    (fetchVariable { newInterpreter with stack := [.Integer 1] } =
      .ok { newInterpreter with stack := [] }) :=
  C6_nonpointer_silently_succeeds newInterpreter (.Integer 2) (.Integer 1)
    [] (fun _ h => Literal.noConfusion h)

/-- C7: binary operand order and arithmetic results.  The first-popped
value (the stack top) is the right-hand operand `b`, the second-popped is
the left-hand operand `a`, and the pushed result is `a op b` (shown for
`+`, `-`, `*` with two's-complement wraparound and for `/` whenever the
division does not panic).  Concretely, the line `3 4 +` leaves
`Integer 7` on the stack, `10 3 /` leaves `Integer 3`, and `-10 3 /`
leaves `Integer (-3)`: integer division truncates toward zero. -/
theorem C7_operand_order_arithmetic (it : ForthInterpreter) (a b : Int)
    (rest : List Literal) :
    (add { it with stack := Literal.Integer b :: Literal.Integer a :: rest } =
      .ok { it with stack := Literal.Integer (wrap64 (a + b)) :: rest }) ∧
    (sub { it with stack := Literal.Integer b :: Literal.Integer a :: rest } =
      .ok { it with stack := Literal.Integer (wrap64 (a - b)) :: rest }) ∧
    (mul { it with stack := Literal.Integer b :: Literal.Integer a :: rest } =
      .ok { it with stack := Literal.Integer (wrap64 (a * b)) :: rest }) ∧
    (b ≠ 0 → ¬(a = i64min ∧ b = -1) →
      div { it with stack := Literal.Integer b :: Literal.Integer a :: rest } =
        .ok { it with stack := Literal.Integer (Int.tdiv a b) :: rest }) ∧
    (execBody 1 newInterpreter [.lit (.Integer 3), .lit (.Integer 4), .word "+"] =
      .ok { newInterpreter with stack := [.Integer 7] }) ∧
    (execBody 1 newInterpreter [.lit (.Integer 10), .lit (.Integer 3), .word "/"] =
      .ok { newInterpreter with stack := [.Integer 3] }) ∧
    (execBody 1 newInterpreter
        [.lit (.Integer (-10)), .lit (.Integer 3), .word "/"] =
      .ok { newInterpreter with stack := [.Integer (-3)] }) := by
  refine ⟨rfl, rfl, rfl, fun h1 h2 => ?_, ?_, ?_, ?_⟩
  · simp [div, getBinaryOperands, i64div, h1, h2, push]
  · simp [execBody, execElement, lookupNative, add, getBinaryOperands,
      push, wrap64, newInterpreter]
  · simp [execBody, execElement, lookupNative, div, getBinaryOperands,
      i64div, i64min, push, newInterpreter]
    decide
  · simp [execBody, execElement, lookupNative, div, getBinaryOperands,
      i64div, i64min, push, newInterpreter]
    decide

/-- C7 (witness): the division conjunct at `a := 10`, `b := 3`. -/
theorem C7_operand_order_arithmetic_witness :
    div { newInterpreter with stack := [.Integer 3, .Integer 10] } =
      .ok { newInterpreter with stack := [.Integer (Int.tdiv 10 3)] } :=
  (C7_operand_order_arithmetic newInterpreter 10 3 []).2.2.2.1
    (by decide) (by decide)

/-- C8: `rot` on a stack whose elements are, bottom to top, `[a, b, c]`
(possibly above further elements — the source removes the element at index
`length - 3`) moves the third-from-top `a` to the top, preserving the
relative order of `b` and `c`: bottom to top the result is `[b, c, a]`.
With fewer than three elements `rot` fails `StackUnderflow`, leaving the
stack untouched. -/
theorem C8_rot (it : ForthInterpreter) (a b c : Literal)
    (rest : List Literal) :
    (rot { it with stack := c :: b :: a :: rest } =
      .ok { it with stack := a :: c :: b :: rest }) ∧
    (it.stack.length < 3 → rot it = .err .StackUnderflow it) := by
  refine ⟨rfl, fun h => ?_⟩
  rcases it with ⟨st, vs, cs, uw, out⟩
  cases st with
  | nil => rfl
  | cons x t =>
    cases t with
    | nil => rfl
    | cons y t2 =>
      cases t2 with
      | nil => rfl
      | cons z r => simp at h; omega

/-- C8 (witness): `rot` shuffles the concrete stack bottom-to-top
`[1, 2, 3]` into `[2, 3, 1]`, and fails `StackUnderflow` on a two-element
stack. -/
theorem C8_rot_witness :
    (rot { newInterpreter with stack := [.Integer 3, .Integer 2, .Integer 1] } =
      .ok { newInterpreter with stack := [.Integer 1, .Integer 3, .Integer 2] }) ∧
    (rot { newInterpreter with stack := [.Integer 2, .Integer 1] } =
      .err .StackUnderflow { newInterpreter with stack := [.Integer 2, .Integer 1] }) :=
  ⟨(C8_rot newInterpreter (.Integer 1) (.Integer 2) (.Integer 3) []).1,
   (C8_rot { newInterpreter with stack := [.Integer 2, .Integer 1] }
      .Unknown .Unknown .Unknown []).2 (by decide)⟩

/-- C9: `ForthInterpreter::bool` maps `Integer (-1)` to `true` and every
other integer — including the non-zero `5` — to `false` (so it does not
follow the non-zero-is-true convention); every string literal is `true`;
and on `Pointer`, `Array` and `Unknown` literals it hits the
`unreachable!()` branch, a host panic (modelled as `none`), so the
function is only a part-function over `Literal`. -/
theorem C9_bool_truthiness (i : Int) (s : String) (p : Pointer)
    (xs : List Literal) :
    (bool (.Integer (-1)) = some true) ∧
    (i ≠ -1 → bool (.Integer i) = some false) ∧
    (bool (.Integer 5) = some false) ∧
    (bool (.String s) = some true) ∧
    (bool (.Pointer p) = none) ∧
    (bool (.Array xs) = none) ∧
    (bool .Unknown = none) := by
  refine ⟨rfl, fun h => ?_, rfl, rfl, rfl, rfl, rfl⟩
  simp [bool, h]

/-- C9 (witness): the generic-integer conjunct at `i := 7`. -/
theorem C9_bool_truthiness_witness : bool (.Integer 7) = some false :=
  (C9_bool_truthiness 7 "" ⟨0, 0⟩ []).2.1 (by decide)

/-- C10: when `!` (with a value below the pointer) or `@` receives a
pointer whose `address` is not an index of the variable list, the
unchecked `Vec` indexing is a host panic rather than a typed `ForthError`;
when the address is a valid slot index, the panic branch is not taken:
`!` succeeds, updating the slot in place (keeping its name), and `@`
succeeds, pushing the slot's value (or `Integer 0` if unset). -/
theorem C10_oob_pointer_panics (it : ForthInterpreter) (v : Literal)
    (p : Pointer) (rest rest' : List Literal) :
    (it.vars.length ≤ p.address →
      (storeVariable { it with stack := Literal.Pointer p :: v :: rest } =
        .panic) ∧
      (fetchVariable { it with stack := Literal.Pointer p :: rest' } =
        .panic)) ∧
    (∀ h : p.address < it.vars.length,
      (storeVariable { it with stack := Literal.Pointer p :: v :: rest } =
        .ok { it with
                stack := rest
                vars := it.vars.set p.address
                  { name := (it.vars.get ⟨p.address, h⟩).name
                    value := some v } }) ∧
      (fetchVariable { it with stack := Literal.Pointer p :: rest' } =
        .ok { it with stack :=
          ((it.vars.get ⟨p.address, h⟩).value.getD (.Integer 0)) :: rest' })) := by
  constructor
  · intro h
    constructor
    · simp [storeVariable, getBinaryOperands, List.getElem?_eq_none h]
    · simp [fetchVariable, getUnaryOperand, List.getElem?_eq_none h]
  · intro h
    constructor
    · simp [storeVariable, getBinaryOperands, List.getElem?_eq_getElem h,
        List.get_eq_getElem]
    · simp [fetchVariable, getUnaryOperand, push,
        List.getElem?_eq_getElem h, List.get_eq_getElem]

/-- C10 (witness): on an interpreter with a single declared variable,
address `3` panics for both `!` and `@`, while address `0` stores and
fetches normally. -/
theorem C10_oob_pointer_panics_witness :
    (storeVariable { newInterpreter with
        stack := [Literal.Pointer ⟨3, 0⟩, .Integer 7]
        vars := [{ name := "v", value := none }] } = .panic) ∧
    (fetchVariable { newInterpreter with
        stack := [Literal.Pointer ⟨3, 0⟩]
        vars := [{ name := "v", value := none }] } = .panic) ∧
    (storeVariable { newInterpreter with
        stack := [Literal.Pointer ⟨0, 0⟩, .Integer 7]
        vars := [{ name := "v", value := none }] } =
      .ok { newInterpreter with
              stack := []
              vars := [{ name := "v", value := some (.Integer 7) }] }) := by
  have hoob := C10_oob_pointer_panics
    { newInterpreter with
        stack := [Literal.Pointer ⟨3, 0⟩, .Integer 7]
        vars := [{ name := "v", value := none }] }
    (.Integer 7) ⟨3, 0⟩ [] []
  have hin := C10_oob_pointer_panics
    { newInterpreter with
        stack := [Literal.Pointer ⟨0, 0⟩, .Integer 7]
        vars := [{ name := "v", value := none }] }
    (.Integer 7) ⟨0, 0⟩ [] []
  exact ⟨(hoob.1 (by decide)).1, (hoob.1 (by decide)).2,
    (hin.2 (by decide)).1⟩
